import Mathlib

/-!
Verification of the Proximity Search Service of the G.F_TechAid backend
(disaster-relief coordination platform).

The backend location service (`app/services/location_service.py`) is present in
the repository only through its documentation; its operations are therefore
modelled from the specification.  The front-end map component
(`LocationPicker.tsx`), its types (`types/index.ts`) and the map configuration
(`utils/constants.ts`) are present as source and embedded directly.

Coordinates are embedded as rationals (the source works with finite decimal
literals); the Haversine distance is embedded over the reals with the exact
trigonometric formula of the spec.
-/

open Real

/-- A geographic coordinate (backend data model: latitude/longitude floats). -/
structure Coordinate where
  latitude : ℚ
  longitude : ℚ
deriving DecidableEq

/-- A facility record (supply station or shelter): id, coordinate, active
flag, and domain attributes (name, address). -/
structure Facility where
  id : ℕ
  coordinate : Coordinate
  isActive : Bool
  name : String
  address : String
deriving DecidableEq

/-- A per-query proximity result: the facility together with its computed
distance from the query origin. -/
structure ProximityResult (α : Type) where
  facility : Facility
  distanceKm : α
deriving DecidableEq

/-- Error taxonomy of the proximity service. -/
inductive LocationError where
  | invalidCoordinate : LocationError
  | invalidRadius : LocationError
  | invalidLimit : LocationError
deriving DecidableEq

/-- Modelled from the spec: `validate_coordinates` of the missing
`location_service.py`.  Rejects lat outside [-90,90] or lng outside
[-180,180], and additionally enforces the regional (Taiwan) bounding box
lat ∈ [21,26], lng ∈ [119,123]. -/
def validate_coordinates (latitude longitude : ℚ) : Bool :=
  decide (-90 ≤ latitude) && decide (latitude ≤ 90) &&
  decide (-180 ≤ longitude) && decide (longitude ≤ 180) &&
  decide (21 ≤ latitude) && decide (latitude ≤ 26) &&
  decide (119 ≤ longitude) && decide (longitude ≤ 123)

/-- Modelled from the spec: the Haversine distance `calculate_distance` of the
missing `location_service.py`, on a sphere of Earth radius 6371 km:
Δlat = radians(lat2 − lat1), Δlng = radians(lng2 − lng1),
h = sin²(Δlat/2) + cos(radians lat1)·cos(radians lat2)·sin²(Δlng/2),
distance = 2 · 6371 · asin(min(1, √h)). -/
noncomputable def calculate_distance (lat1 lng1 lat2 lng2 : ℝ) : ℝ :=
  2 * 6371 * Real.arcsin (min 1 (Real.sqrt (
    Real.sin ((lat2 - lat1) * π / 180 / 2) ^ 2 +
    Real.cos (lat1 * π / 180) * Real.cos (lat2 * π / 180) *
      Real.sin ((lng2 - lng1) * π / 180 / 2) ^ 2)))

/-- The ordering used to sort proximity results: ascending by distance,
tie-break by ascending facility id. -/
def resOrder {α : Type} [LinearOrder α] (x y : ProximityResult α) : Prop :=
  x.distanceKm < y.distanceKm ∨
    (x.distanceKm = y.distanceKm ∧ x.facility.id ≤ y.facility.id)

instance {α : Type} [LinearOrder α] : DecidableRel (resOrder (α := α)) := by
  intro x y
  unfold resOrder
  infer_instance

instance {α : Type} [LinearOrder α] : IsTotal (ProximityResult α) resOrder := by
  constructor
  intro x y
  rcases lt_trichotomy x.distanceKm y.distanceKm with h | h | h
  · exact Or.inl (Or.inl h)
  · rcases Nat.le_total x.facility.id y.facility.id with hid | hid
    · exact Or.inl (Or.inr ⟨h, hid⟩)
    · exact Or.inr (Or.inr ⟨h.symm, hid⟩)
  · exact Or.inr (Or.inl h)

instance {α : Type} [LinearOrder α] : IsTrans (ProximityResult α) resOrder := by
  constructor
  intro x y z hxy hyz
  rcases hxy with h1 | ⟨h1, hid1⟩
  · rcases hyz with h2 | ⟨h2, _⟩
    · exact Or.inl (h1.trans h2)
    · exact Or.inl (h2 ▸ h1)
  · rcases hyz with h2 | ⟨h2, hid2⟩
    · exact Or.inl (h1 ▸ h2)
    · exact Or.inr ⟨h1.trans h2, hid1.trans hid2⟩

/-- Modelled from the spec: the `findNearby` contract (4.3) of the missing
`location_service.py` (`find_nearby_supply_stations` / `find_nearby_shelters`
after the storage fetch), generic in the distance function: validate the
origin, check radius and limit positivity, filter candidates to the active
ones, compute a distance per candidate, retain the entries within the radius,
sort ascending by distance with ties broken by facility id, and truncate to
the first `limit` entries. -/
def findNearby {α : Type} [LinearOrderedField α] (dist : Coordinate → Coordinate → α)
    (origin : Coordinate) (candidates : List Facility) (radiusKm : α) (limit : ℤ) :
    Except LocationError (List (ProximityResult α)) :=
  if validate_coordinates origin.latitude origin.longitude = true then
    if 0 < radiusKm then
      if 0 < limit then
        Except.ok ((List.insertionSort resOrder
          (((candidates.filter (fun f => f.isActive)).map
              (fun f => ProximityResult.mk f (dist origin f.coordinate))).filter
            (fun r => r.distanceKm ≤ radiusKm))).take limit.toNat)
      else Except.error LocationError.invalidLimit
    else Except.error LocationError.invalidRadius
  else Except.error LocationError.invalidCoordinate

/-- Modelled from the spec: the fixed default coordinate of the operating
region (花蓮光復鄉), used as geocoding fallback; matches the front-end
`MAP_CONFIG.DEFAULT_CENTER` in `src/frontend/src/utils/constants.ts`. -/
def defaultCoordinate : Coordinate :=
  { latitude := 23.9739, longitude := 121.6015 }

/-- The external mapping provider: either unavailable (no API key configured,
or an outage), or available as a partial address-resolution function. -/
inductive GeocodeProvider where
  | unavailable : GeocodeProvider
  | available : (String → Option Coordinate) → GeocodeProvider

/-- Modelled from the spec: `geocode_address` of the missing
`location_service.py`.  When the provider is unavailable, or resolution
fails, it returns the fixed default coordinate of the operating region
instead of raising an error (total function). -/
def geocode_address (provider : GeocodeProvider) (address : String) : Coordinate :=
  match provider with
  | GeocodeProvider.unavailable => defaultCoordinate
  | GeocodeProvider.available f =>
    match f address with
    | none => defaultCoordinate
    | some c => c

/-- `MAP_CONFIG.DEFAULT_CENTER` from `src/frontend/src/utils/constants.ts`:
`DEFAULT_CENTER: [23.9739, 121.6015]`. -/
def MAP_CONFIG_DEFAULT_CENTER : ℚ × ℚ := (23.9739, 121.6015)

/-- Front-end coordinate pair (`Coordinates` in the front-end types). -/
structure Coordinates where
  lat : ℚ
  lng : ℚ
deriving DecidableEq

/-- Front-end `LocationData` (from the front-end types): an address string, a
coordinate pair, and optional details. -/
structure LocationData where
  address : String
  coordinates : Coordinates
  details : Option String
deriving DecidableEq

/-- JavaScript `Number.prototype.toFixed(6)`: format with exactly six decimal
places, rounding to the nearest multiple of 10⁻⁶. -/
def toFixed6 (q : ℚ) : String :=
  let n : ℤ := round (q * 1000000)
  let sign := if n < 0 then "-" else ""
  let m := n.natAbs
  let ip := m / 1000000
  let fp := m % 1000000
  let fs := toString fp
  sign ++ toString ip ++ "." ++ String.mk (List.replicate (6 - fs.length) '0') ++ fs

/-- `MapClickHandler` of `LocationPicker.tsx`: on a map click at (lat, lng) it
builds a `LocationData` whose address is formatted from the clicked
coordinates to six decimal places, whose coordinates are the clicked point
unchanged, and whose details are the fixed marker text; this value is passed
to `onLocationSelect`.  No validation is applied. -/
def mapClickHandler (lat lng : ℚ) : LocationData :=
  { address := "緯度: " ++ toFixed6 lat ++ ", 經度: " ++ toFixed6 lng
    coordinates := { lat := lat, lng := lng }
    details := some "地圖選點" }

/-! ### Theorems -/

/-- C4: `validate(lat, lng)` fails (returning the `InvalidCoordinate` error
kind from `findNearby`) exactly when lat is outside [-90,90], or lng is
outside [-180,180], or the point lies outside the regional bounding box
lat ∈ [21,26], lng ∈ [119,123]; in particular (90.1, 0) fails validation. -/
theorem validate_coordinates_spec :
    (∀ lat lng : ℚ, validate_coordinates lat lng = false ↔
      (lat < -90 ∨ 90 < lat ∨ lng < -180 ∨ 180 < lng ∨
       lat < 21 ∨ 26 < lat ∨ lng < 119 ∨ 123 < lng)) ∧
    validate_coordinates 90.1 0 = false ∧
    (∀ (dist : Coordinate → Coordinate → ℚ) (candidates : List Facility)
       (radiusKm : ℚ) (limit : ℤ),
      findNearby dist ⟨90.1, 0⟩ candidates radiusKm limit =
        Except.error LocationError.invalidCoordinate) := by
  have hiff : ∀ lat lng : ℚ, validate_coordinates lat lng = false ↔
      (lat < -90 ∨ 90 < lat ∨ lng < -180 ∨ 180 < lng ∨
       lat < 21 ∨ 26 < lat ∨ lng < 119 ∨ 123 < lng) := by
    intro lat lng
    rw [← Bool.not_eq_true]
    simp only [validate_coordinates, Bool.and_eq_true, decide_eq_true_eq, not_and_or, not_le]
    tauto
  have hfail : validate_coordinates 90.1 0 = false := by
    norm_num [validate_coordinates]
  refine ⟨hiff, hfail, ?_⟩
  intro dist candidates radiusKm limit
  unfold findNearby
  simp [hfail]

/-- C6: the Haversine distance is symmetric: `distanceKm(a,b)` equals
`distanceKm(b,a)` exactly, hence in particular within 1e-9 relative
tolerance. -/
theorem calculate_distance_symm :
    ∀ lat1 lng1 lat2 lng2 : ℝ,
      calculate_distance lat1 lng1 lat2 lng2 = calculate_distance lat2 lng2 lat1 lng1 ∧
      |calculate_distance lat1 lng1 lat2 lng2 - calculate_distance lat2 lng2 lat1 lng1| ≤
        1e-9 * |calculate_distance lat1 lng1 lat2 lng2| := by
  intro lat1 lng1 lat2 lng2
  have heq : calculate_distance lat1 lng1 lat2 lng2 = calculate_distance lat2 lng2 lat1 lng1 := by
    unfold calculate_distance
    have h1 : (lat1 - lat2) * π / 180 / 2 = -((lat2 - lat1) * π / 180 / 2) := by ring
    have h2 : (lng1 - lng2) * π / 180 / 2 = -((lng2 - lng1) * π / 180 / 2) := by ring
    rw [h1, h2, Real.sin_neg, Real.sin_neg]
    ring_nf
  refine ⟨heq, ?_⟩
  rw [heq, sub_self, abs_zero]
  positivity

/-- C7: for every address, when the external mapping provider is unavailable
(for example, no API key is configured) or resolution fails, `geocode`
returns the fixed default coordinate of the operating region; it is a total
function, so a geocoding outage never produces an error. -/
theorem geocode_address_fallback :
    ∀ address : String,
      geocode_address GeocodeProvider.unavailable address = defaultCoordinate ∧
      ∀ f : String → Option Coordinate,
        geocode_address (GeocodeProvider.available f) address =
          (f address).getD defaultCoordinate := by
  intro address
  refine ⟨rfl, ?_⟩
  intro f
  cases h : f address <;> simp [geocode_address, h]

/-- C9: the fixed default coordinate used as the map center and as the
geocoding fallback is (23.9739, 121.6015); it lies inside the regional
bounding box lat ∈ [21,26], lng ∈ [119,123], so it passes coordinate
validation and substituting the fallback can never itself trigger an
`InvalidCoordinate` error, whatever the provider returns on failure. -/
theorem default_center_valid :
    MAP_CONFIG_DEFAULT_CENTER = (defaultCoordinate.latitude, defaultCoordinate.longitude) ∧
    (21 ≤ defaultCoordinate.latitude ∧ defaultCoordinate.latitude ≤ 26 ∧
     119 ≤ defaultCoordinate.longitude ∧ defaultCoordinate.longitude ≤ 123) ∧
    validate_coordinates defaultCoordinate.latitude defaultCoordinate.longitude = true ∧
    (∀ address : String,
      validate_coordinates (geocode_address GeocodeProvider.unavailable address).latitude
        (geocode_address GeocodeProvider.unavailable address).longitude = true) := by
  have hval : validate_coordinates defaultCoordinate.latitude defaultCoordinate.longitude
      = true := by
    norm_num [validate_coordinates, defaultCoordinate]
  refine ⟨rfl, ?_, hval, ?_⟩
  · refine ⟨?_, ?_, ?_, ?_⟩ <;> norm_num [defaultCoordinate]
  · intro address
    exact hval

/-- C10: on every map click at (lat, lng), `MapClickHandler` produces a
`LocationData` whose coordinates equal the clicked point exactly and whose
address is the string formatted from those coordinates to six decimal
places; no range or regional-bounding-box validation is applied, so a
clicked coordinate outside the regional box is passed through unchanged. -/
theorem mapClickHandler_passthrough :
    ∀ lat lng : ℚ,
      (mapClickHandler lat lng).coordinates = ⟨lat, lng⟩ ∧
      (mapClickHandler lat lng).address =
        "緯度: " ++ toFixed6 lat ++ ", 經度: " ++ toFixed6 lng ∧
      (mapClickHandler lat lng).details = some "地圖選點" := by
  intro lat lng
  exact ⟨rfl, rfl, rfl⟩

/-- Helper: under the preconditions, `findNearby` succeeds with the sorted,
radius-filtered, truncated list. -/
lemma findNearby_ok_eq {α : Type} [LinearOrderedField α] (dist : Coordinate → Coordinate → α)
    (origin : Coordinate) (candidates : List Facility) (radiusKm : α) (limit : ℤ)
    (hval : validate_coordinates origin.latitude origin.longitude = true)
    (hrad : 0 < radiusKm) (hlim : 0 < limit) :
    findNearby dist origin candidates radiusKm limit =
      Except.ok ((List.insertionSort resOrder
        (((candidates.filter (fun f => f.isActive)).map
            (fun f => ProximityResult.mk f (dist origin f.coordinate))).filter
          (fun r => r.distanceKm ≤ radiusKm))).take limit.toNat) := by
  unfold findNearby
  rw [if_pos hval, if_pos hrad, if_pos hlim]

/-- C1: for every origin passing coordinate validation, every positive radius
and limit, every candidate set and every distance function, every entry of a
successful `findNearby` result satisfies `distanceKm ≤ radiusKm` and has
`isActive = true`; in particular an inactive facility never appears. -/
theorem findNearby_radius_active {α : Type} [LinearOrderedField α]
    (dist : Coordinate → Coordinate → α) (origin : Coordinate)
    (candidates : List Facility) (radiusKm : α) (limit : ℤ)
    (res : List (ProximityResult α))
    (hval : validate_coordinates origin.latitude origin.longitude = true)
    (hrad : 0 < radiusKm) (hlim : 0 < limit)
    (hok : findNearby dist origin candidates radiusKm limit = Except.ok res) :
    ∀ r ∈ res, r.distanceKm ≤ radiusKm ∧ r.facility.isActive = true := by
  rw [findNearby_ok_eq dist origin candidates radiusKm limit hval hrad hlim] at hok
  injection hok with hok
  subst hok
  intro r hr
  have hr1 : r ∈ List.insertionSort resOrder
      (((candidates.filter (fun f => f.isActive)).map
          (fun f => ProximityResult.mk f (dist origin f.coordinate))).filter
        (fun r => r.distanceKm ≤ radiusKm)) := List.mem_of_mem_take hr
  have hr2 := (List.mem_insertionSort resOrder).mp hr1
  obtain ⟨hr3, hle⟩ := List.mem_filter.mp hr2
  refine ⟨of_decide_eq_true hle, ?_⟩
  obtain ⟨f, hf, hfr⟩ := List.mem_map.mp hr3
  obtain ⟨_, hact⟩ := List.mem_filter.mp hf
  rw [← hfr]
  exact hact

/-- Witness for C1 at a concrete query: one active and one inactive facility,
constant distance 1, radius 5, limit 2. -/
theorem findNearby_radius_active_wit :
    (ProximityResult.mk ⟨1, ⟨23, 120⟩, true, "A", "addrA"⟩ (1 : ℚ)).distanceKm ≤ (5 : ℚ) ∧
    (ProximityResult.mk ⟨1, ⟨23, 120⟩, true, "A", "addrA"⟩ (1 : ℚ)).facility.isActive = true :=
  findNearby_radius_active (fun _ _ => (1 : ℚ)) ⟨23, 120⟩
    [⟨1, ⟨23, 120⟩, true, "A", "addrA"⟩, ⟨2, ⟨24, 121⟩, false, "B", "addrB"⟩] 5 2
    [ProximityResult.mk ⟨1, ⟨23, 120⟩, true, "A", "addrA"⟩ 1]
    (by decide) (by decide) (by decide) (by rfl)
    (ProximityResult.mk ⟨1, ⟨23, 120⟩, true, "A", "addrA"⟩ 1)
    (List.mem_singleton.mpr rfl)

/-- C2: every successful `findNearby` result list is sorted non-decreasing by
distance, and any two entries with equal distance are ordered by ascending
facility id, so the output ordering is deterministic for a fixed input. -/
theorem findNearby_sorted {α : Type} [LinearOrderedField α]
    (dist : Coordinate → Coordinate → α) (origin : Coordinate)
    (candidates : List Facility) (radiusKm : α) (limit : ℤ)
    (res : List (ProximityResult α))
    (hok : findNearby dist origin candidates radiusKm limit = Except.ok res) :
    res.Pairwise (fun x y => x.distanceKm ≤ y.distanceKm ∧
      (x.distanceKm = y.distanceKm → x.facility.id ≤ y.facility.id)) := by
  by_cases hval : validate_coordinates origin.latitude origin.longitude = true
  · by_cases hrad : 0 < radiusKm
    · by_cases hlim : 0 < limit
      · rw [findNearby_ok_eq dist origin candidates radiusKm limit hval hrad hlim] at hok
        injection hok with hok
        subst hok
        have hs : List.Pairwise resOrder (List.insertionSort resOrder
            (((candidates.filter (fun f => f.isActive)).map
                (fun f => ProximityResult.mk f (dist origin f.coordinate))).filter
              (fun r => r.distanceKm ≤ radiusKm))) :=
          List.sorted_insertionSort resOrder _
        refine (hs.sublist (List.take_sublist _ _)).imp ?_
        intro x y hxy
        rcases hxy with h | ⟨he, hid⟩
        · exact ⟨h.le, fun heq => absurd (heq ▸ h) (lt_irrefl _)⟩
        · exact ⟨he.le, fun _ => hid⟩
      · rw [findNearby, if_pos hval, if_pos hrad, if_neg hlim] at hok
        exact absurd hok (by simp)
    · rw [findNearby, if_pos hval, if_neg hrad] at hok
      exact absurd hok (by simp)
  · rw [findNearby, if_neg hval] at hok
    exact absurd hok (by simp)

/-- Witness for C2 at a concrete query: two active facilities at distinct
distances; the returned list is pairwise ordered. -/
theorem findNearby_sorted_wit :
    ([ProximityResult.mk ⟨1, ⟨23, 120⟩, true, "A", "addrA"⟩ (23 : ℚ),
      ProximityResult.mk ⟨2, ⟨24, 121⟩, true, "B", "addrB"⟩ (24 : ℚ)] :
        List (ProximityResult ℚ)).Pairwise
      (fun x y => x.distanceKm ≤ y.distanceKm ∧
        (x.distanceKm = y.distanceKm → x.facility.id ≤ y.facility.id)) :=
  findNearby_sorted (fun _ c => c.latitude) ⟨23, 120⟩
    [⟨2, ⟨24, 121⟩, true, "B", "addrB"⟩, ⟨1, ⟨23, 120⟩, true, "A", "addrA"⟩] 30 2
    [ProximityResult.mk ⟨1, ⟨23, 120⟩, true, "A", "addrA"⟩ 23,
     ProximityResult.mk ⟨2, ⟨24, 121⟩, true, "B", "addrB"⟩ 24]
    (by rfl)

/-- C5: for every query with positive limit (and valid origin and radius),
the number of results returned by `findNearby` is at most `limit`. -/
theorem findNearby_length_le_limit {α : Type} [LinearOrderedField α]
    (dist : Coordinate → Coordinate → α) (origin : Coordinate)
    (candidates : List Facility) (radiusKm : α) (limit : ℤ)
    (res : List (ProximityResult α))
    (hval : validate_coordinates origin.latitude origin.longitude = true)
    (hrad : 0 < radiusKm) (hlim : 0 < limit)
    (hok : findNearby dist origin candidates radiusKm limit = Except.ok res) :
    (res.length : ℤ) ≤ limit := by
  rw [findNearby_ok_eq dist origin candidates radiusKm limit hval hrad hlim] at hok
  injection hok with hok
  subst hok
  have h1 : ((List.insertionSort resOrder
      (((candidates.filter (fun f => f.isActive)).map
          (fun f => ProximityResult.mk f (dist origin f.coordinate))).filter
        (fun r => r.distanceKm ≤ radiusKm))).take limit.toNat).length ≤ limit.toNat :=
    List.length_take_le _ _
  omega

/-- Witness for C5 at a concrete query: three active facilities within
radius, limit 2, so exactly 2 results come back. -/
theorem findNearby_length_le_limit_wit :
    (([ProximityResult.mk ⟨1, ⟨23, 120⟩, true, "A", "addrA"⟩ (1 : ℚ),
       ProximityResult.mk ⟨2, ⟨24, 121⟩, true, "B", "addrB"⟩ (1 : ℚ)] :
        List (ProximityResult ℚ)).length : ℤ) ≤ 2 :=
  findNearby_length_le_limit (fun _ _ => (1 : ℚ)) ⟨23, 120⟩
    [⟨1, ⟨23, 120⟩, true, "A", "addrA"⟩, ⟨2, ⟨24, 121⟩, true, "B", "addrB"⟩,
     ⟨3, ⟨25, 122⟩, true, "C", "addrC"⟩] 5 2
    [ProximityResult.mk ⟨1, ⟨23, 120⟩, true, "A", "addrA"⟩ 1,
     ProximityResult.mk ⟨2, ⟨24, 121⟩, true, "B", "addrB"⟩ 1]
    (by decide) (by decide) (by decide) (by rfl)

/-- C8: with a valid origin, positive radius and positive limit, `findNearby`
on an empty candidate list returns the empty result list (not an error), and
likewise when no active candidate lies within the radius. -/
theorem findNearby_empty_ok {α : Type} [LinearOrderedField α]
    (dist : Coordinate → Coordinate → α) (origin : Coordinate)
    (radiusKm : α) (limit : ℤ)
    (hval : validate_coordinates origin.latitude origin.longitude = true)
    (hrad : 0 < radiusKm) (hlim : 0 < limit) :
    findNearby dist origin [] radiusKm limit = Except.ok [] ∧
    ∀ candidates : List Facility,
      (∀ f ∈ candidates, f.isActive = true → radiusKm < dist origin f.coordinate) →
      findNearby dist origin candidates radiusKm limit = Except.ok [] := by
  constructor
  · rw [findNearby_ok_eq dist origin [] radiusKm limit hval hrad hlim]
    simp
  · intro candidates hfar
    rw [findNearby_ok_eq dist origin candidates radiusKm limit hval hrad hlim]
    have hnil : ((candidates.filter (fun f => f.isActive)).map
        (fun f => ProximityResult.mk f (dist origin f.coordinate))).filter
          (fun r => r.distanceKm ≤ radiusKm) = [] := by
      refine List.filter_eq_nil_iff.mpr ?_
      intro r hr
      obtain ⟨f, hf, hfr⟩ := List.mem_map.mp hr
      obtain ⟨hfc, hact⟩ := List.mem_filter.mp hf
      have hlt := hfar f hfc hact
      simp only [← hfr, decide_eq_true_eq]
      exact not_le.mpr hlt
    rw [hnil]
    simp

/-- Witness for C8 at a concrete query: an empty candidate list, and a
candidate list whose only active facility is farther than the radius. -/
theorem findNearby_empty_ok_wit :
    findNearby (fun _ _ => (10 : ℚ)) ⟨23, 120⟩ [] 5 2 = Except.ok [] ∧
    findNearby (fun _ _ => (10 : ℚ)) ⟨23, 120⟩
      [⟨1, ⟨23, 120⟩, true, "A", "addrA"⟩] 5 2 = Except.ok [] :=
  ⟨(findNearby_empty_ok (fun _ _ => (10 : ℚ)) ⟨23, 120⟩ 5 2
      (by decide) (by decide) (by decide)).1,
   (findNearby_empty_ok (fun _ _ => (10 : ℚ)) ⟨23, 120⟩ 5 2
      (by decide) (by decide) (by decide)).2
     [⟨1, ⟨23, 120⟩, true, "A", "addrA"⟩] (by decide)⟩

/-! ### Rigorous numeric bounds for the Haversine scenario (C3)

Interval bounds for `calculate_distance 23.6739 121.4015 23.9739 121.6015`,
derived from Taylor-style bounds on sin and cos and the monotonicity of
sqrt and arcsin.  The true value is about 39.07 km. -/

lemma hav_pi_lb : (3.141592 : ℝ) ≤ π := Real.pi_gt_d6.le

lemma hav_pi_ub : π ≤ (3.141593 : ℝ) := Real.pi_lt_d6.le

lemma hav_x1_lb : (0.0026179933 : ℝ) ≤ 0.3 * π / 180 / 2 := by nlinarith [hav_pi_lb]

lemma hav_x1_ub : (0.3 : ℝ) * π / 180 / 2 ≤ 0.0026179942 := by nlinarith [hav_pi_ub]

lemma hav_s1_ub : Real.sin (0.3 * π / 180 / 2) ≤ 0.0026179942 :=
  le_trans (Real.sin_le (by nlinarith [hav_pi_lb])) hav_x1_ub

lemma hav_s1_lb : (0.0026179888 : ℝ) ≤ Real.sin (0.3 * π / 180 / 2) := by
  have hpos : (0:ℝ) < 0.3 * π / 180 / 2 := by nlinarith [hav_pi_lb]
  have hle1 : (0.3:ℝ) * π / 180 / 2 ≤ 1 := by nlinarith [hav_pi_ub]
  have hs := Real.sin_gt_sub_cube hpos hle1
  have hcube : (0.3 * π / 180 / 2 : ℝ) ^ 3 ≤ 0.0026179942 ^ 3 :=
    pow_le_pow_left₀ hpos.le hav_x1_ub 3
  nlinarith [hav_x1_lb]

lemma hav_x2_lb : (0.0017453288 : ℝ) ≤ 0.2 * π / 180 / 2 := by nlinarith [hav_pi_lb]

lemma hav_x2_ub : (0.2 : ℝ) * π / 180 / 2 ≤ 0.0017453295 := by nlinarith [hav_pi_ub]

lemma hav_s2_ub : Real.sin (0.2 * π / 180 / 2) ≤ 0.0017453295 :=
  le_trans (Real.sin_le (by nlinarith [hav_pi_lb])) hav_x2_ub

lemma hav_s2_lb : (0.0017453274 : ℝ) ≤ Real.sin (0.2 * π / 180 / 2) := by
  have hpos : (0:ℝ) < 0.2 * π / 180 / 2 := by nlinarith [hav_pi_lb]
  have hle1 : (0.2:ℝ) * π / 180 / 2 ≤ 1 := by nlinarith [hav_pi_ub]
  have hs := Real.sin_gt_sub_cube hpos hle1
  have hcube : (0.2 * π / 180 / 2 : ℝ) ^ 3 ≤ 0.0017453295 ^ 3 :=
    pow_le_pow_left₀ hpos.le hav_x2_ub 3
  nlinarith [hav_x2_lb]

lemma hav_a1_lb : (0.4131874 : ℝ) ≤ 23.6739 * π / 180 := by nlinarith [hav_pi_lb]

lemma hav_a1_ub : (23.6739 : ℝ) * π / 180 ≤ 0.4131876 := by nlinarith [hav_pi_ub]

lemma hav_c1_lb : (0.9146 : ℝ) ≤ Real.cos (23.6739 * π / 180) := by
  have h := Real.one_sub_sq_div_two_le_cos (x := 23.6739 * π / 180)
  have hsq : (23.6739 * π / 180 : ℝ) ^ 2 ≤ 0.4131876 ^ 2 :=
    pow_le_pow_left₀ (by nlinarith [hav_pi_lb]) hav_a1_ub 2
  nlinarith

lemma hav_c1_ub : Real.cos (23.6739 * π / 180) ≤ 0.91617 := by
  have habs : |(23.6739 * π / 180 : ℝ)| ≤ 1 := by
    rw [abs_of_nonneg (by nlinarith [hav_pi_lb])]
    nlinarith [hav_pi_ub]
  have h := (abs_le.mp (Real.cos_bound habs)).2
  rw [abs_of_nonneg (by nlinarith [hav_pi_lb] : (0:ℝ) ≤ 23.6739 * π / 180)] at h
  have hsq : (0.4131874 : ℝ) ^ 2 ≤ (23.6739 * π / 180) ^ 2 :=
    pow_le_pow_left₀ (by norm_num) hav_a1_lb 2
  have hq : (23.6739 * π / 180 : ℝ) ^ 4 ≤ 0.4131876 ^ 4 :=
    pow_le_pow_left₀ (by nlinarith [hav_pi_lb]) hav_a1_ub 4
  nlinarith

lemma hav_a2_lb : (0.4184233 : ℝ) ≤ 23.9739 * π / 180 := by nlinarith [hav_pi_lb]

lemma hav_a2_ub : (23.9739 : ℝ) * π / 180 ≤ 0.4184236 := by nlinarith [hav_pi_ub]

lemma hav_c2_lb : (0.91246 : ℝ) ≤ Real.cos (23.9739 * π / 180) := by
  have h := Real.one_sub_sq_div_two_le_cos (x := 23.9739 * π / 180)
  have hsq : (23.9739 * π / 180 : ℝ) ^ 2 ≤ 0.4184236 ^ 2 :=
    pow_le_pow_left₀ (by nlinarith [hav_pi_lb]) hav_a2_ub 2
  nlinarith

lemma hav_c2_ub : Real.cos (23.9739 * π / 180) ≤ 0.91407 := by
  have habs : |(23.9739 * π / 180 : ℝ)| ≤ 1 := by
    rw [abs_of_nonneg (by nlinarith [hav_pi_lb])]
    nlinarith [hav_pi_ub]
  have h := (abs_le.mp (Real.cos_bound habs)).2
  rw [abs_of_nonneg (by nlinarith [hav_pi_lb] : (0:ℝ) ≤ 23.9739 * π / 180)] at h
  have hsq : (0.4184233 : ℝ) ^ 2 ≤ (23.9739 * π / 180) ^ 2 :=
    pow_le_pow_left₀ (by norm_num) hav_a2_lb 2
  have hq : (23.9739 * π / 180 : ℝ) ^ 4 ≤ 0.4184236 ^ 4 :=
    pow_le_pow_left₀ (by nlinarith [hav_pi_lb]) hav_a2_ub 4
  nlinarith

lemma hav_h_lb : (0.0000093958 : ℝ) ≤
    Real.sin (0.3 * π / 180 / 2) ^ 2 +
      Real.cos (23.6739 * π / 180) * Real.cos (23.9739 * π / 180) *
        Real.sin (0.2 * π / 180 / 2) ^ 2 := by
  have hs1sq : (0.0026179888 : ℝ) ^ 2 ≤ Real.sin (0.3 * π / 180 / 2) ^ 2 :=
    pow_le_pow_left₀ (by norm_num) hav_s1_lb 2
  have hs2sq : (0.0017453274 : ℝ) ^ 2 ≤ Real.sin (0.2 * π / 180 / 2) ^ 2 :=
    pow_le_pow_left₀ (by norm_num) hav_s2_lb 2
  have hcc : (0.9146 : ℝ) * 0.91246 ≤
      Real.cos (23.6739 * π / 180) * Real.cos (23.9739 * π / 180) :=
    mul_le_mul hav_c1_lb hav_c2_lb (by norm_num) (le_trans (by norm_num) hav_c1_lb)
  have hccs : ((0.9146 : ℝ) * 0.91246) * ((0.0017453274 : ℝ) ^ 2) ≤
      Real.cos (23.6739 * π / 180) * Real.cos (23.9739 * π / 180) *
        Real.sin (0.2 * π / 180 / 2) ^ 2 :=
    mul_le_mul hcc hs2sq (by norm_num) (le_trans (by norm_num) hcc)
  nlinarith [hs1sq, hccs]

lemma hav_h_ub : Real.sin (0.3 * π / 180 / 2) ^ 2 +
      Real.cos (23.6739 * π / 180) * Real.cos (23.9739 * π / 180) *
        Real.sin (0.2 * π / 180 / 2) ^ 2 ≤ 0.0000094052 := by
  have hs1sq : Real.sin (0.3 * π / 180 / 2) ^ 2 ≤ (0.0026179942 : ℝ) ^ 2 :=
    pow_le_pow_left₀ (le_trans (by norm_num) hav_s1_lb) hav_s1_ub 2
  have hs2sq : Real.sin (0.2 * π / 180 / 2) ^ 2 ≤ (0.0017453295 : ℝ) ^ 2 :=
    pow_le_pow_left₀ (le_trans (by norm_num) hav_s2_lb) hav_s2_ub 2
  have hcc : Real.cos (23.6739 * π / 180) * Real.cos (23.9739 * π / 180) ≤
      (0.91617 : ℝ) * 0.91407 :=
    mul_le_mul hav_c1_ub hav_c2_ub (le_trans (by norm_num) hav_c2_lb) (by norm_num)
  have hccs : Real.cos (23.6739 * π / 180) * Real.cos (23.9739 * π / 180) *
        Real.sin (0.2 * π / 180 / 2) ^ 2 ≤ ((0.91617 : ℝ) * 0.91407) * ((0.0017453295 : ℝ) ^ 2) :=
    mul_le_mul hcc hs2sq (sq_nonneg _) (by norm_num)
  nlinarith [hs1sq, hccs]

lemma hav_sqrt_lb : (0.0030652 : ℝ) ≤ Real.sqrt
    (Real.sin (0.3 * π / 180 / 2) ^ 2 +
      Real.cos (23.6739 * π / 180) * Real.cos (23.9739 * π / 180) *
        Real.sin (0.2 * π / 180 / 2) ^ 2) := by
  rw [Real.le_sqrt' (by norm_num)]
  nlinarith [hav_h_lb]

lemma hav_sqrt_ub : Real.sqrt
    (Real.sin (0.3 * π / 180 / 2) ^ 2 +
      Real.cos (23.6739 * π / 180) * Real.cos (23.9739 * π / 180) *
        Real.sin (0.2 * π / 180 / 2) ^ 2) ≤ 0.0030668 := by
  rw [Real.sqrt_le_left (by norm_num)]
  nlinarith [hav_h_ub]

lemma hav_arcsin_lb : (0.0030652 : ℝ) ≤ Real.arcsin (Real.sqrt
    (Real.sin (0.3 * π / 180 / 2) ^ 2 +
      Real.cos (23.6739 * π / 180) * Real.cos (23.9739 * π / 180) *
        Real.sin (0.2 * π / 180 / 2) ^ 2)) := by
  have h0 : (0:ℝ) ≤ Real.sqrt
      (Real.sin (0.3 * π / 180 / 2) ^ 2 +
        Real.cos (23.6739 * π / 180) * Real.cos (23.9739 * π / 180) *
          Real.sin (0.2 * π / 180 / 2) ^ 2) := Real.sqrt_nonneg _
  have ha0 := Real.arcsin_nonneg.mpr h0
  have hs := Real.sin_le ha0
  rw [Real.sin_arcsin (by linarith) (le_trans hav_sqrt_ub (by norm_num))] at hs
  exact le_trans hav_sqrt_lb hs

lemma hav_arcsin_ub : Real.arcsin (Real.sqrt
    (Real.sin (0.3 * π / 180 / 2) ^ 2 +
      Real.cos (23.6739 * π / 180) * Real.cos (23.9739 * π / 180) *
        Real.sin (0.2 * π / 180 / 2) ^ 2)) ≤ 0.0030669 := by
  have hcube := Real.sin_gt_sub_cube (show (0:ℝ) < 0.0030669 by norm_num)
    (show (0.0030669:ℝ) ≤ 1 by norm_num)
  have hst : Real.sqrt
      (Real.sin (0.3 * π / 180 / 2) ^ 2 +
        Real.cos (23.6739 * π / 180) * Real.cos (23.9739 * π / 180) *
          Real.sin (0.2 * π / 180 / 2) ^ 2) ≤ Real.sin 0.0030669 := by
    nlinarith [hav_sqrt_ub]
  have hmono := Real.monotone_arcsin hst
  rwa [Real.arcsin_sin (by nlinarith [hav_pi_lb]) (by nlinarith [hav_pi_lb])] at hmono

lemma hav_d_lb : (39.056 : ℝ) ≤ calculate_distance 23.6739 121.4015 23.9739 121.6015 := by
  unfold calculate_distance
  have e1 : ((23.9739:ℝ) - 23.6739) = 0.3 := by norm_num
  have e2 : ((121.6015:ℝ) - 121.4015) = 0.2 := by norm_num
  rw [e1, e2, min_eq_right (le_trans hav_sqrt_ub (by norm_num))]
  nlinarith [hav_arcsin_lb]

lemma hav_d_ub : calculate_distance 23.6739 121.4015 23.9739 121.6015 ≤ 39.079 := by
  unfold calculate_distance
  have e1 : ((23.9739:ℝ) - 23.6739) = 0.3 := by norm_num
  have e2 : ((121.6015:ℝ) - 121.4015) = 0.2 := by norm_num
  rw [e1, e2, min_eq_right (le_trans hav_sqrt_ub (by norm_num))]
  nlinarith [hav_arcsin_ub]

/-- C3 counterexample: at origin (23.6739, 121.4015) and candidate
(23.9739, 121.6015), the Haversine distance of the spec's own formula is NOT
38.0 km within ±0.5 km (it is about 39.07 km). -/
theorem calculate_distance_scenario_counterexample :
    0.5 < |calculate_distance 23.6739 121.4015 23.9739 121.6015 - 38.0| := by
  have h1 := hav_d_lb
  have h2 : (0:ℝ) ≤ calculate_distance 23.6739 121.4015 23.9739 121.6015 - 38.0 := by
    linarith
  rw [abs_of_nonneg h2]
  linarith

/-- C3 (amended): `distanceKm` is the Haversine great-circle distance on a
sphere of Earth radius 6371 km (distance = 2·R·asin(min(1, √h))); for origin
(23.6739, 121.4015) and candidate (23.9739, 121.6015) the distance is
approximately 39.1 km (within ±0.5 km), so that candidate is excluded when
radiusKm = 10 and included when radiusKm = 50. -/
theorem calculate_distance_scenario :
    |calculate_distance 23.6739 121.4015 23.9739 121.6015 - 39.1| ≤ 0.5 ∧
    10 < calculate_distance 23.6739 121.4015 23.9739 121.6015 ∧
    calculate_distance 23.6739 121.4015 23.9739 121.6015 ≤ 50 := by
  refine ⟨abs_le.mpr ⟨?_, ?_⟩, ?_, ?_⟩
  · linarith [hav_d_lb]
  · linarith [hav_d_ub]
  · linarith [hav_d_lb]
  · linarith [hav_d_ub]
